/-
Verification of the weather-service core against its design document.

The Python sources are shallowly embedded: pure post-processing
(geo candidate filtering, retry classification, backoff arithmetic) becomes
Lean functions; the HTTP layer is abstracted as an input (the list of
candidates the geocoder returned, or the status code each attempt of a
request observes); exceptions become an explicit `Except` error channel;
Python `float` delays become exact rationals.
-/
import Mathlib

namespace WeatherService

/-! ## String model

Python string case operations, restricted to the ASCII range the service's
inputs use. `str.lower` and `str.casefold` coincide on this fragment, so they
share the character map; both names are kept to mirror the two methods the
source calls (`lower()` in the exact-name filter, `casefold()` in the state
filter). -/

/-- ASCII lower-casing of a single character, as Python `str.lower` acts on it. -/
def pyLowerChar (c : Char) : Char :=
  if 'A' ≤ c ∧ c ≤ 'Z' then Char.ofNat (c.toNat + 32) else c

/-- Python `s.lower()` on the ASCII fragment. -/
def pyLower (s : String) : String := ⟨s.data.map pyLowerChar⟩

/-- Python `s.casefold()` on the ASCII fragment (identical to `pyLower` there). -/
def pyCasefold (s : String) : String := ⟨s.data.map pyLowerChar⟩

/-- Whitespace characters stripped by Python `str.strip`. -/
def isPySpace (c : Char) : Bool :=
  c = ' ' || c = '\t' || c = '\n' || c = '\r'

/-- Python `s.strip()`. -/
def pyStrip (s : String) : String :=
  ⟨((s.data.dropWhile isPySpace).reverse.dropWhile isPySpace).reverse⟩

/-! ## Geo data model and resolver
(`core/geo/base.py`, `core/geo/open_weather_geo_provider.py`)

`OpenWeatherGeoProvider.resolve_locations` first fetches up to five raw
candidates over HTTP, then filters them. The HTTP call is abstracted as the
`fetched` argument; the two filters are embedded verbatim. -/

/-- The `Location` dataclass of `core/geo/base.py`. `local_names` is modelled as an
association list standing in for the Python dict. -/
structure Location where
  latitude : ℚ
  longitude : ℚ
  name : String
  local_names : List (String × String)
  country : String
  state : Option String
deriving DecidableEq, Repr

/-- The `location.state.casefold() if location.state else ""`: Python truthiness
sends both `None` and `""` to `""`. -/
def stateCasefoldOrEmpty : Option String → String
  | some s => if s = "" then "" else pyCasefold s
  | none => ""

/-- The exact-name filter of `resolve_locations` (lines 75–77):
`[l for l in locations if l.name.lower() == city.lower()]`. -/
def exact_name_matches (city : String) (locations : List Location) : List Location :=
  locations.filter (fun location => pyLower location.name == pyLower city)

/-- The state-disambiguation predicate of `resolve_locations` (lines 82–89).
Python precedence parses the comprehension's condition as
`(location.state is None and state is None) or (fold(location.state) == fold(state))`. -/
def state_filter_keeps (state : Option String) (location : Location) : Bool :=
  (location.state.isNone && state.isNone)
    || (stateCasefoldOrEmpty location.state == stateCasefoldOrEmpty state)

/-- The `OpenWeatherGeoProvider.resolve_locations` (lines 67–91), with the raw
candidate list the geo HTTP endpoint returned passed in as `fetched`.
`country_code` only shapes the HTTP query, so it is unused here. -/
def resolve_locations (city : String) (_country_code state : Option String)
    (fetched : List Location) : List Location :=
  let locations := exact_name_matches city fetched
  if locations.length > 1 then
    locations.filter (state_filter_keeps state)
  else
    locations

/-- Candidate used in concrete scenarios: London, England, GB. -/
def londonGB : Location :=
  { latitude := 51, longitude := 0, name := "London", local_names := [],
    country := "GB", state := some "England" }

/-- Candidate used in concrete scenarios: London, Ontario, CA. -/
def londonCA : Location :=
  { latitude := 43, longitude := -81, name := "London", local_names := [],
    country := "CA", state := some "Ontario" }

/-! ## Errors (`core/exceptions.py` and the `httpx` error classes)

The exception values the retry layer inspects. `ThirdPartyProviderUnavailable`
carries the original error it wraps, mirroring
`ThirdPartyProviderUnavailable(provider_name, original_error)`. -/

inductive PyError where
  /-- The `httpx.HTTPStatusError` with the response's status code. -/
  | httpStatusError (statusCode : Nat)
  /-- The `httpx.TimeoutException`. -/
  | timeoutException
  /-- The `httpx.ConnectError`. -/
  | connectError
  /-- The `httpx.NetworkError`. -/
  | networkError
  /-- The `ThirdPartyProviderError(provider_name, message, status_code)`. -/
  | thirdPartyProviderError (provider_name message : String) (statusCode : Nat)
  /-- The `ThirdPartyProviderUnavailable(provider_name, original_error)`. -/
  | thirdPartyProviderUnavailable (provider_name : String) (original_error : Option PyError)
  /-- Any other exception (e.g. `ValueError`). -/
  | otherError

/-! ## Retry policy (`core/retry.py`) -/

/-- The `RetryConfig` attribute record. Delays are modelled as exact rationals. -/
structure RetryConfig where
  max_retries : Nat
  base_delay : ℚ
  max_delay : ℚ
  backoff_factor : ℚ
  retriable_status_codes : List Nat
deriving DecidableEq, Repr

/-- The status-code set `RetryConfig.__init__` falls back to. -/
def defaultRetriableStatusCodes : List Nat := [500, 502, 503, 504, 429, 408]

/-- The `RetryConfig.__init__` (lines 20–39), with its Python default arguments.
`retriable_status_codes or {…}` uses truthiness: both `None` and the empty
set select the default set. -/
def mkRetryConfig (max_retries : Nat := 3) (base_delay : ℚ := 1)
    (max_delay : ℚ := 10) (backoff_factor : ℚ := 2)
    (retriable_status_codes : Option (List Nat) := none) : RetryConfig :=
  { max_retries, base_delay, max_delay, backoff_factor,
    retriable_status_codes :=
      match retriable_status_codes with
      | some codes => if codes = [] then defaultRetriableStatusCodes else codes
      | none => defaultRetriableStatusCodes }

/-- The `is_retriable_error` (lines 42–59). Note: the source consults a hard-coded
status-code set, not any `RetryConfig`. -/
def is_retriable_error : PyError → Bool
  | .httpStatusError statusCode => defaultRetriableStatusCodes.contains statusCode
  | .timeoutException => true
  | .connectError => true
  | .networkError => true
  | _ => false

/-- The `calculate_delay` (lines 62–65). -/
def calculate_delay (attempt : Nat) (config : RetryConfig) : ℚ :=
  min (config.base_delay * config.backoff_factor ^ attempt) config.max_delay

/-- Observable outcome of a `with_retry`-wrapped call: the returned value or
raised exception, the number of invocations of the wrapped function, and the
backoff delays slept between attempts. -/
structure RetryOutcome (α : Type) where
  result : Except PyError α
  attempts : Nat
  delays : List ℚ

/-- The `for attempt in range(config.max_retries + 1)` loop of `with_retry`
(lines 79–109). `func i` is what the wrapped call does on its i-th invocation
(0-indexed); `fuel` counts the loop iterations remaining, and the fuel-0 case
is the source's unreachable fall-through raising
`ThirdPartyProviderUnavailable(provider_name, last_error)`. -/
def retry_go {α : Type} (config : RetryConfig) (provider_name : String)
    (func : Nat → Except PyError α) : Nat → Nat → Option PyError → RetryOutcome α
  | 0, attempt, last_error =>
      ⟨.error (.thirdPartyProviderUnavailable provider_name last_error), attempt, []⟩
  | fuel + 1, attempt, _last_error =>
      match func attempt with
      | .ok v => ⟨.ok v, attempt + 1, []⟩
      | .error e =>
          if is_retriable_error e = false then
            ⟨.error e, attempt + 1, []⟩
          else if attempt < config.max_retries then
            let rest := retry_go config provider_name func fuel (attempt + 1) (some e)
            ⟨rest.result, rest.attempts, calculate_delay attempt config :: rest.delays⟩
          else
            ⟨.error (.thirdPartyProviderUnavailable provider_name (some e)), attempt + 1, []⟩

/-- The `with_retry(config, provider_name)` applied to a wrapped call (lines 68–113).
The decorator's own `config or RetryConfig()` default is handled at the use
sites, which pass the already-resolved config. -/
def with_retry {α : Type} (config : RetryConfig) (provider_name : String)
    (func : Nat → Except PyError α) : RetryOutcome α :=
  retry_go config provider_name func (config.max_retries + 1) 0 none

/-! ## OpenWeather API client (`third_party/openweather/client.py`) -/

/-- The `PROVIDER_NAME` constant of the client module. -/
def OPENWEATHER_PROVIDER_NAME : String := "OpenWeatherAPI"

/-- The body of one invocation of `OpenWeatherApiClient._make_request`
(lines 42–64), abstracted over the HTTP response: `status` is the response's
status code and `json` its parsed body. The 401/404/429 branches run before
`response.raise_for_status()`, which raises `httpx.HTTPStatusError` for any
remaining status ≥ 400. -/
def make_request_once {α : Type} (status : Nat) (json : α) : Except PyError α :=
  if status = 401 then
    .error (.thirdPartyProviderError OPENWEATHER_PROVIDER_NAME "Invalid API key" 401)
  else if status = 404 then
    .error (.thirdPartyProviderError OPENWEATHER_PROVIDER_NAME "Location not found" 404)
  else if status = 429 then
    .error (.thirdPartyProviderError OPENWEATHER_PROVIDER_NAME "API rate limit exceeded" 429)
  else if 400 ≤ status then
    .error (.httpStatusError status)
  else
    .ok json

/-- The `OpenWeatherApiClient` attribute record. -/
structure OpenWeatherApiClient where
  api_key : String
  weather_base_url : String
  geo_base_url : String
  retry_config : RetryConfig

/-- The `OpenWeatherApiClient.__init__` (lines 25–36): `retry_config or RetryConfig()`;
an object is always truthy, so only `None` selects the default config. -/
def mkOpenWeatherApiClient (api_key : String)
    (retry_config : Option RetryConfig := none) : OpenWeatherApiClient :=
  { api_key,
    weather_base_url := "https://api.openweathermap.org/data/2.5",
    geo_base_url := "https://api.openweathermap.org/geo/1.0",
    retry_config := match retry_config with
      | some config => config
      | none => mkRetryConfig }

/-- The `OpenWeatherApiClient._make_request` as decorated by
`@with_retry(provider_name=PROVIDER_NAME)` (line 38): the decorator is applied
with `config=None` at class-definition time, so the wrapper runs with
`RetryConfig()`; `statuses i` is the HTTP status the i-th attempt observes. -/
def OpenWeatherApiClient.make_request {α : Type} (_client : OpenWeatherApiClient)
    (statuses : Nat → Nat) (json : α) : RetryOutcome α :=
  with_retry mkRetryConfig OPENWEATHER_PROVIDER_NAME
    (fun attempt => make_request_once (statuses attempt) json)

/-! ## Weather service orchestration (`core/weather/service.py`) -/

/-- A persistence side effect of `WeatherService._store_weather_info`. -/
inductive StoreOp where
  /-- The `data_store.put_object(object_name, data)`. -/
  | putObject (object_name : String) (data : String)
  /-- The `event_store.put_event(Event(..., city, country_code, state, url))`. -/
  | putEvent (city country_code : String) (state : Option String) (url : String)
deriving DecidableEq, Repr

/-- Python `f"{x}"` for `x : str | None`. -/
def pyStrOpt : Option String → String
  | some s => s
  | none => "None"

/-- The `WeatherService._format_file_name` (lines 31–34); the wall-clock timestamp
is passed in as `ts`. -/
def format_file_name (city_name : String) (country_code state : Option String)
    (ts : String) : String :=
  pyStrOpt (some city_name) ++ "_" ++ pyStrOpt country_code ++ "_"
    ++ pyStrOpt state ++ "_" ++ ts ++ ".json"

/-- The `WeatherService._store_weather_info` (lines 99–114): the object write,
whose returned url feeds the event write. `put_object` models the data store's
`put_object(name, data) -> url` and `serialize` the payload's `to_json`. -/
def store_weather_info {W : Type} (put_object : String → String → String)
    (serialize : W → String) (ts : String) (location : Location) (weather_info : W) :
    List StoreOp :=
  let object_name := format_file_name location.name (some location.country) location.state ts
  let url := put_object object_name (serialize weather_info)
  [.putObject object_name (serialize weather_info),
   .putEvent location.name location.country location.state url]

/-- The sequential fetch loop of `get_weather_by_city` (lines 52–57): the first
failing `get_current_weather` aborts the whole call. -/
def fetch_all {W : Type} (get_current_weather : Location → Except PyError W) :
    List Location → Except PyError (List (Location × W))
  | [] => .ok []
  | location :: rest =>
      match get_current_weather location with
      | .error e => .error e
      | .ok weather_info =>
          match fetch_all get_current_weather rest with
          | .error e => .error e
          | .ok pairs => .ok ((location, weather_info) :: pairs)

/-- The `country_code.lower().strip() if country_code else None` (lines 42–43):
Python truthiness sends both `None` and `""` to `None`. -/
def normalizeOptArg : Option String → Option String
  | some s => if s = "" then none else some (pyStrip (pyLower s))
  | none => none

/-- The location list `get_weather_by_city` resolves: the geo provider
(abstracted as `resolve`) applied to the normalized arguments (lines 41–47). -/
def resolvedLocations (resolve : String → Option String → Option String → List Location)
    (city_name : String) (country_code state : Option String) : List Location :=
  resolve (pyStrip (pyLower city_name)) (normalizeOptArg country_code) (normalizeOptArg state)

/-- The `WeatherService.get_weather_by_city` (lines 36–66): resolve, fetch weather
for every location sequentially, then persist every pair (the persistence
`asyncio.gather` starts only after the fetch loop finished). Returns the
result (or raised error) together with the persistence operations performed. -/
def get_weather_by_city {W : Type}
    (resolve : String → Option String → Option String → List Location)
    (get_current_weather : Location → Except PyError W)
    (put_object : String → String → String) (serialize : W → String) (ts : String)
    (city_name : String) (country_code state : Option String) :
    Except PyError (List (Location × W)) × List StoreOp :=
  let locations := resolvedLocations resolve city_name country_code state
  if locations.length = 0 then (.ok [], [])
  else
    match fetch_all get_current_weather locations with
    | .error e => (.error e, [])
    | .ok weather_infos_by_location =>
        (.ok weather_infos_by_location,
         weather_infos_by_location.flatMap
           (fun p => store_weather_info put_object serialize ts p.1 p.2))

/-! ## Helper lemmas -/

/-- A wrapped call that fails with a retriable error on every attempt drives the
retry loop to exhaustion: starting anywhere inside the loop, it ends after the
attempt indexed `max_retries`, raising `ThirdPartyProviderUnavailable` around
that attempt's error. -/
theorem retry_go_exhausts {α : Type} (config : RetryConfig) (provider_name : String)
    (func : Nat → Except PyError α) (err : Nat → PyError)
    (hfail : ∀ i, func i = .error (err i))
    (hret : ∀ i, is_retriable_error (err i) = true) :
    ∀ (fuel attempt : Nat) (last_error : Option PyError),
      attempt + fuel = config.max_retries + 1 →
      attempt ≤ config.max_retries →
      retry_go config provider_name func fuel attempt last_error
        = ⟨.error (.thirdPartyProviderUnavailable provider_name
              (some (err config.max_retries))),
           config.max_retries + 1,
           (retry_go config provider_name func fuel attempt last_error).delays⟩ := by
  intro fuel
  induction fuel with
  | zero => intro attempt last_error hsum hle; omega
  | succ fuel ih =>
      intro attempt last_error hsum hle
      simp only [retry_go, hfail attempt, hret attempt, Bool.true_eq_false, if_false]
      by_cases hlt : attempt < config.max_retries
      · rw [if_pos hlt]
        have h := ih (attempt + 1) (some (err attempt)) (by omega) (by omega)
        rw [h]
      · rw [if_neg hlt]
        have heq : attempt = config.max_retries := by omega
        subst heq
        rfl

/-- A wrapped call whose first invocation fails with a non-retriable error
makes the retry wrapper stop after that single invocation, re-raising the
error as-is with no backoff sleep. -/
theorem with_retry_fatal_aux {α : Type} (config : RetryConfig) (provider_name : String)
    (func : Nat → Except PyError α) (e : PyError)
    (h0 : func 0 = .error e) (hfatal : is_retriable_error e = false) :
    with_retry config provider_name func = ⟨.error e, 1, []⟩ := by
  unfold with_retry
  rw [retry_go, h0]
  simp [hfatal]

/-! ## Claims about the retry policy -/

/-- Claim C4: For every `RetryConfig` with `max_retries = n ≥ 0` (including
`n = 0`) and every operation failing with a retriable error on every
invocation, `with_retry` invokes the operation exactly `n + 1` times and then
raises `ThirdPartyProviderUnavailable(provider_name, last_error)` wrapping,
not replacing, the last observed error. -/
theorem with_retry_exhausts {α : Type} (config : RetryConfig) (provider_name : String)
    (func : Nat → Except PyError α) (err : Nat → PyError)
    (hfail : ∀ i, func i = .error (err i))
    (hret : ∀ i, is_retriable_error (err i) = true) :
    (with_retry config provider_name func).attempts = config.max_retries + 1 ∧
    (with_retry config provider_name func).result
      = .error (.thirdPartyProviderUnavailable provider_name
          (some (err config.max_retries))) := by
  have h := retry_go_exhausts config provider_name func err hfail hret
    (config.max_retries + 1) 0 none (by omega) (by omega)
  unfold with_retry
  rw [h]
  exact ⟨rfl, rfl⟩

/-- Witness for C4: with `max_retries = 2` and an operation always failing with
HTTP 500, the call makes exactly 3 invocations and raises
`ThirdPartyProviderUnavailable` wrapping the last HTTP 500 error. -/
theorem with_retry_exhausts_witness :
    (with_retry (mkRetryConfig 2) "Unknown Provider"
        (fun _ => (.error (.httpStatusError 500) : Except PyError Nat))).attempts = 3 ∧
    (with_retry (mkRetryConfig 2) "Unknown Provider"
        (fun _ => (.error (.httpStatusError 500) : Except PyError Nat))).result
      = .error (.thirdPartyProviderUnavailable "Unknown Provider"
          (some (.httpStatusError 500))) :=
  with_retry_exhausts (mkRetryConfig 2) "Unknown Provider" _
    (fun _ => .httpStatusError 500) (fun _ => rfl) (fun _ => rfl)

/-- Claim C5: An operation whose first failure is a non-retriable (fatal) error is
invoked exactly once; the error is re-raised as-is and never wrapped in
`ThirdPartyProviderUnavailable`, regardless of `max_retries`. -/
theorem with_retry_fatal_once {α : Type} (config : RetryConfig) (provider_name : String)
    (func : Nat → Except PyError α) (e : PyError)
    (h0 : func 0 = .error e) (hfatal : is_retriable_error e = false) :
    (with_retry config provider_name func).attempts = 1 ∧
    (with_retry config provider_name func).result = .error e := by
  rw [with_retry_fatal_aux config provider_name func e h0 hfatal]
  exact ⟨rfl, rfl⟩

/-- Witness for C5: an HTTP 400 failure on the first attempt is raised as-is
after exactly one invocation (here under the default config with
`max_retries = 3`). -/
theorem with_retry_fatal_once_witness :
    (with_retry mkRetryConfig "Unknown Provider"
        (fun _ => (.error (.httpStatusError 400) : Except PyError Nat))).attempts = 1 ∧
    (with_retry mkRetryConfig "Unknown Provider"
        (fun _ => (.error (.httpStatusError 400) : Except PyError Nat))).result
      = .error (.httpStatusError 400) :=
  with_retry_fatal_once mkRetryConfig "Unknown Provider" _ (.httpStatusError 400) rfl rfl

/-- Claim C8: For every `RetryConfig` with positive `base_delay` and
`backoff_factor > 1`: `calculate_delay i config` equals
`min (base_delay * backoff_factor ^ i) max_delay`, is non-decreasing in `i`,
never exceeds `max_delay`; and for `base_delay = 1, backoff_factor = 2,
max_delay = 10` (the defaults) the delays for `i = 0..4` are
`1, 2, 4, 8, 10`. -/
theorem calculate_delay_spec (config : RetryConfig)
    (hbase : 0 < config.base_delay) (hfac : 1 < config.backoff_factor) :
    (∀ i, calculate_delay i config
        = min (config.base_delay * config.backoff_factor ^ i) config.max_delay) ∧
    (∀ i j, i ≤ j → calculate_delay i config ≤ calculate_delay j config) ∧
    (∀ i, calculate_delay i config ≤ config.max_delay) ∧
    (calculate_delay 0 mkRetryConfig = 1 ∧ calculate_delay 1 mkRetryConfig = 2 ∧
     calculate_delay 2 mkRetryConfig = 4 ∧ calculate_delay 3 mkRetryConfig = 8 ∧
     calculate_delay 4 mkRetryConfig = 10) := by
  refine ⟨fun i => rfl, ?_, fun i => min_le_right _ _, ?_⟩
  · intro i j hij
    unfold calculate_delay
    exact min_le_min
      (mul_le_mul_of_nonneg_left (pow_le_pow_right₀ hfac.le hij) hbase.le) le_rfl
  · refine ⟨?_, ?_, ?_, ?_, ?_⟩ <;> norm_num [calculate_delay, mkRetryConfig]

/-- Witness for C8, at the default config: the hypotheses hold and the delay
schedule is non-decreasing from attempt 3 to attempt 4 while capped at 10. -/
theorem calculate_delay_spec_witness :
    calculate_delay 3 mkRetryConfig ≤ calculate_delay 4 mkRetryConfig ∧
    calculate_delay 4 mkRetryConfig ≤ (mkRetryConfig).max_delay :=
  ⟨(calculate_delay_spec mkRetryConfig zero_lt_one one_lt_two).2.1 3 4 (by omega),
   (calculate_delay_spec mkRetryConfig zero_lt_one one_lt_two).2.2.1 4⟩

/-! ## Claims about the OpenWeather client and retry configuration -/

/-- The retry loop never consults `retriable_status_codes`: overwriting that
field of any config leaves every outcome of the loop unchanged. -/
theorem retry_go_codes_irrelevant {α : Type} (config : RetryConfig) (codes : List Nat)
    (provider_name : String) (func : Nat → Except PyError α) :
    ∀ (fuel attempt : Nat) (last_error : Option PyError),
      retry_go { config with retriable_status_codes := codes } provider_name func
          fuel attempt last_error
        = retry_go config provider_name func fuel attempt last_error := by
  intro fuel
  induction fuel with
  | zero => intro attempt last_error; rfl
  | succ fuel ih =>
      intro attempt last_error
      cases hf : func attempt with
      | ok v => simp only [retry_go, hf]
      | error e =>
          simp only [retry_go, hf]
          by_cases hr : is_retriable_error e = false
          · rw [if_pos hr, if_pos hr]
          · rw [if_neg hr, if_neg hr]
            by_cases hlt : attempt < config.max_retries
            · rw [if_pos hlt, if_pos hlt, ih]; rfl
            · rw [if_neg hlt, if_neg hlt]

/-- Claim C3 counterexample: A config whose `retriable_status_codes` is the
custom set `{400}`: 400 is a member, yet the classifier deems an HTTP 400
error non-retriable and the wrapper configured with that set makes exactly one
attempt, re-raising the error — the custom set does not change which status
codes are retried. -/
theorem retriable_codes_ignored_cex :
    400 ∈ (mkRetryConfig 3 1 10 2 (some [400])).retriable_status_codes ∧
    is_retriable_error (.httpStatusError 400) = false ∧
    (with_retry (mkRetryConfig 3 1 10 2 (some [400])) "Unknown Provider"
        (fun _ => (.error (.httpStatusError 400) : Except PyError Nat))).attempts = 1 ∧
    (with_retry (mkRetryConfig 3 1 10 2 (some [400])) "Unknown Provider"
        (fun _ => (.error (.httpStatusError 400) : Except PyError Nat))).result
      = .error (.httpStatusError 400) :=
  ⟨by decide, rfl, rfl, rfl⟩

/-- Claim C3 amended: `is_retriable_error` classifies an HTTP status error by
the hard-coded set `{500, 502, 503, 504, 429, 408}`; the
`retriable_status_codes` field of the `RetryConfig` in force is never
consulted, so a custom set changes nothing about which status codes are
retried. -/
theorem retry_classification_ignores_config :
    (∀ (config : RetryConfig) (codes : List Nat) (provider_name : String)
       {α : Type} (func : Nat → Except PyError α),
       with_retry { config with retriable_status_codes := codes } provider_name func
         = with_retry config provider_name func) ∧
    (∀ statusCode : Nat,
       is_retriable_error (.httpStatusError statusCode)
         = defaultRetriableStatusCodes.contains statusCode) :=
  ⟨fun config codes provider_name _ func =>
     retry_go_codes_irrelevant config codes provider_name func _ 0 none,
   fun _ => rfl⟩

/-- Claim C2 counterexample: A request whose every attempt receives HTTP 429:
`_make_request` translates 429 into `ThirdPartyProviderError` before
`raise_for_status`, that exception is classified non-retriable, and the
request is made exactly once — even though a bare HTTP 429 status error would
have been retriable. So the 429 translation replaces, rather than layers on
top of, the retriable/fatal split. -/
theorem make_request_429_not_retried_cex :
    ((mkOpenWeatherApiClient "key").make_request (fun _ => 429) ()).attempts = 1 ∧
    ((mkOpenWeatherApiClient "key").make_request (fun _ => 429) ()).result
      = .error (.thirdPartyProviderError "OpenWeatherAPI" "API rate limit exceeded" 429) ∧
    is_retriable_error
      (.thirdPartyProviderError "OpenWeatherAPI" "API rate limit exceeded" 429) = false ∧
    is_retriable_error (.httpStatusError 429) = true :=
  ⟨rfl, rfl, rfl, rfl⟩

/-- Claim C2 amended: Whenever the first attempt of `_make_request` receives an
HTTP 429 response, the rate-limited translation
(`ThirdPartyProviderError(…, "API rate limit exceeded", 429)`) is raised
immediately: it is non-retriable, so the operation is invoked exactly once and
no retry happens, under any client. -/
theorem make_request_429_fails_fast {α : Type} (client : OpenWeatherApiClient)
    (statuses : Nat → Nat) (json : α) (h : statuses 0 = 429) :
    (client.make_request statuses json).attempts = 1 ∧
    (client.make_request statuses json).result
      = .error (.thirdPartyProviderError "OpenWeatherAPI" "API rate limit exceeded" 429) := by
  have hbody : make_request_once (statuses 0) json
      = .error (.thirdPartyProviderError "OpenWeatherAPI" "API rate limit exceeded" 429) := by
    rw [h]; rfl
  unfold OpenWeatherApiClient.make_request
  rw [with_retry_fatal_aux mkRetryConfig OPENWEATHER_PROVIDER_NAME
    (fun attempt => make_request_once (statuses attempt) json) _ hbody rfl]
  exact ⟨rfl, rfl⟩

/-- Witness for the amended C2, with every attempt receiving HTTP 429. -/
theorem make_request_429_fails_fast_witness :
    (((mkOpenWeatherApiClient "key").make_request (fun _ => 429) (0 : Nat)).attempts = 1) ∧
    (((mkOpenWeatherApiClient "key").make_request (fun _ => 429) (0 : Nat)).result
      = .error (.thirdPartyProviderError "OpenWeatherAPI" "API rate limit exceeded" 429)) :=
  make_request_429_fails_fast (mkOpenWeatherApiClient "key") (fun _ => 429) 0 rfl

/-- Claim C10: The `retry_config` constructor argument of `OpenWeatherApiClient`
is stored on the instance but has no effect on `_make_request`: the decorator
was applied with `config=None` at class-definition time, so every request runs
under the default `RetryConfig()` (`max_retries = 3, base_delay = 1,
max_delay = 10, backoff_factor = 2`), whatever config the instance carries. -/
theorem make_request_ignores_instance_retry_config {α : Type} (api_key : String)
    (config : RetryConfig) (statuses : Nat → Nat) (json : α) :
    (mkOpenWeatherApiClient api_key (some config)).make_request statuses json
      = (mkOpenWeatherApiClient api_key none).make_request statuses json ∧
    (mkOpenWeatherApiClient api_key (some config)).make_request statuses json
      = with_retry mkRetryConfig OPENWEATHER_PROVIDER_NAME
          (fun attempt => make_request_once (statuses attempt) json) ∧
    (mkOpenWeatherApiClient api_key (some config)).retry_config = config :=
  ⟨rfl, rfl, rfl⟩

/-! ## Claims about the geo resolver -/

/-- Every member of the exact-name filter's output has a name whose casefold
equals the queried city's casefold. -/
theorem name_casefold_of_mem_exact {city : String} {fetched : List Location}
    {location : Location} (h : location ∈ exact_name_matches city fetched) :
    pyCasefold location.name = pyCasefold city := by
  have h2 := (List.mem_filter.mp h).2
  exact eq_of_beq h2

/-- Claim C6: Every `Location` in the list returned by `resolve_locations`
satisfies `name.casefold() == city.casefold()` for the queried city. -/
theorem resolve_locations_name_casefold (city : String) (country_code state : Option String)
    (fetched : List Location) :
    ∀ location ∈ resolve_locations city country_code state fetched,
      pyCasefold location.name = pyCasefold city := by
  intro location hmem
  unfold resolve_locations at hmem
  by_cases h : (exact_name_matches city fetched).length > 1
  · rw [if_pos h] at hmem
    exact name_casefold_of_mem_exact (List.mem_of_mem_filter hmem)
  · rw [if_neg h] at hmem
    exact name_casefold_of_mem_exact hmem

/-- Witness for C6 on a concrete query: the sole survivor of resolving
`"London"` casefold-matches the query. -/
theorem resolve_locations_name_casefold_witness :
    londonGB ∈ resolve_locations "London" none none [londonGB] ∧
    pyCasefold londonGB.name = pyCasefold "London" :=
  ⟨by decide,
   resolve_locations_name_casefold "London" none none [londonGB] londonGB (by decide)⟩

/-- Claim C9: When exactly one candidate survives the exact-name filter, it is
returned unconditionally: the state-disambiguation filter runs only when more
than one candidate remains, so the unique match is returned even when its
state does not casefold-match a caller-supplied `state`. -/
theorem resolve_locations_unique_match (city : String) (country_code state : Option String)
    (fetched : List Location) (location : Location)
    (h : exact_name_matches city fetched = [location]) :
    resolve_locations city country_code state fetched = [location] := by
  unfold resolve_locations
  rw [h]
  simp

/-- Witness for C9: `londonGB` (state `"England"`) is the unique exact-name
match and is returned even though the caller asks for state `"ontario"`,
which does not casefold-match. -/
theorem resolve_locations_unique_match_witness :
    exact_name_matches "London" [londonGB] = [londonGB] ∧
    stateCasefoldOrEmpty londonGB.state ≠ stateCasefoldOrEmpty (some "ontario") ∧
    resolve_locations "London" none (some "ontario") [londonGB] = [londonGB] :=
  ⟨by decide, by decide,
   resolve_locations_unique_match "London" none (some "ontario") [londonGB] londonGB
     (by decide)⟩

/-- Claim C1 counterexample: Scenario B from the spec, concretely: two
candidates both named `"London"`, carrying distinct non-null states, no
`state` argument — `resolve_locations` returns the empty list, not the
still-ambiguous pair. -/
theorem resolve_ambiguous_no_state_cex :
    pyCasefold londonGB.name = pyCasefold "London" ∧
    pyCasefold londonCA.name = pyCasefold "London" ∧
    londonGB.state ≠ none ∧ londonCA.state ≠ none ∧
    londonGB.state ≠ londonCA.state ∧
    resolve_locations "London" none none [londonGB, londonCA] = [] := by
  refine ⟨rfl, rfl, ?_, ?_, ?_, rfl⟩ <;> decide

/-- Claim C1 amended: When no `state` argument is supplied and more than one
candidate survives the exact-name filter, every candidate whose `state` is
present and casefolds to a non-empty string is dropped; in particular when all
survivors carry such a state, `resolve_locations` returns the empty list (the
still-ambiguous pair is filtered away, and the caller sees "no match" rather
than an ambiguity). -/
theorem resolve_ambiguous_no_state_empty (city : String) (country_code : Option String)
    (fetched : List Location)
    (hlen : (exact_name_matches city fetched).length > 1)
    (hstates : ∀ location ∈ exact_name_matches city fetched,
      location.state.isNone = false ∧ stateCasefoldOrEmpty location.state ≠ "") :
    resolve_locations city country_code none fetched = [] := by
  unfold resolve_locations
  rw [if_pos hlen]
  apply List.filter_eq_nil_iff.mpr
  intro location hmem
  obtain ⟨hnone, hfold⟩ := hstates location hmem
  have h2 : stateCasefoldOrEmpty (none : Option String) = "" := rfl
  simp [state_filter_keeps, hnone, h2, beq_eq_false_iff_ne, hfold]

/-- Witness for the amended C1, on the two-Londons scenario. -/
theorem resolve_ambiguous_no_state_empty_witness :
    resolve_locations "London" none none [londonGB, londonCA] = [] :=
  resolve_ambiguous_no_state_empty "London" none [londonGB, londonCA]
    (by decide) (by decide)

/-! ## Claims about the weather orchestration -/

/-- If some location in the list has a failing weather fetch, the sequential
fetch loop errors. -/
theorem fetch_all_error {W : Type} (get_current_weather : Location → Except PyError W) :
    ∀ (locations : List Location) (location : Location) (e : PyError),
      location ∈ locations → get_current_weather location = .error e →
      ∃ e', fetch_all get_current_weather locations = .error e' := by
  intro locations
  induction locations with
  | nil => intro location e hmem; exact absurd hmem (List.not_mem_nil location)
  | cons head rest ih =>
      intro location e hmem hfail
      cases hh : get_current_weather head with
      | error e2 => exact ⟨e2, by simp [fetch_all, hh]⟩
      | ok w =>
          rcases List.mem_cons.mp hmem with heq | hrest
          · subst heq
            rw [hfail] at hh
            exact absurd hh (by simp)
          · obtain ⟨e', he'⟩ := ih location e hrest hfail
            exact ⟨e', by simp [fetch_all, hh, he']⟩

/-- Claim C7: If any resolved location's weather fetch fails,
`get_weather_by_city` propagates an error (no partial result list) and
performs no persistence write at all — neither `put_object` nor `put_event`
for any location of the request. -/
theorem get_weather_by_city_fetch_failure_no_persistence {W : Type}
    (resolve : String → Option String → Option String → List Location)
    (get_current_weather : Location → Except PyError W)
    (put_object : String → String → String) (serialize : W → String) (ts : String)
    (city_name : String) (country_code state : Option String)
    (location : Location) (e : PyError)
    (hmem : location ∈ resolvedLocations resolve city_name country_code state)
    (hfail : get_current_weather location = .error e) :
    ∃ e', get_weather_by_city resolve get_current_weather put_object serialize ts
        city_name country_code state = (.error e', []) := by
  obtain ⟨e', he'⟩ := fetch_all_error get_current_weather
    (resolvedLocations resolve city_name country_code state) location e hmem hfail
  have hne : ¬(resolvedLocations resolve city_name country_code state).length = 0 := by
    intro h0
    rw [List.length_eq_zero] at h0
    rw [h0] at hmem
    exact absurd hmem (List.not_mem_nil location)
  refine ⟨e', ?_⟩
  unfold get_weather_by_city
  rw [if_neg hne, he']

/-- Witness for C7: one resolved location whose fetch raises a connection
error — the call fails and the persistence trace is empty. -/
theorem get_weather_by_city_fetch_failure_witness :
    ∃ e', get_weather_by_city (fun _ _ _ => [londonGB])
        (fun _ => (.error .connectError : Except PyError Unit))
        (fun _ _ => "http://store/x") (fun _ => "\x7b\x7d") "20240101_000000"
        "London" none none = (.error e', []) :=
  get_weather_by_city_fetch_failure_no_persistence (fun _ _ _ => [londonGB])
    (fun _ => (.error .connectError : Except PyError Unit))
    (fun _ _ => "http://store/x") (fun _ => "\x7b\x7d") "20240101_000000"
    "London" none none londonGB .connectError (by decide) rfl

end WeatherService
